import Mathlib

/-
Verification development for the TradeForge trading-journal application.

The embedding below translates the position-tracking / P&L accounting core
(src/utils.py: TradingCalculator.calculate_pnl, calculate_metrics,
calculate_risk_metrics) and the ledger operations it consumes
(src/data.py: DatabaseManager.add_trade, get_trades, update_trade,
delete_trade, import_from_csv) into executable Lean definitions.

Modelling conventions:
- Python floats become rationals; Python float division by a zero
  denominator raises ZeroDivisionError, modelled by returning none.
- A pandas DataFrame of trades becomes a List Trade in row order.
- pandas sort_values is modelled by a stable insertion sort on the date
  key (the pandas default quicksort is deterministic but unstable on
  ties; all concrete inputs below use distinct dates so the choice is
  immaterial).
- Dict/dataframe columns that no verified property reads
  (asset_type, notes, option fields, currency, market, sharpe-like
  statistic, monthly groupings) are omitted from the structures.
-/

/-- Trade side, from the trade_type column ('Buy' or 'Sell'; the code
treats every non-'Buy' value as a sell via its else branch). -/
inductive Side where
  | Buy : Side
  | Sell : Side
deriving DecidableEq, Repr

/-- One row of the trades table / trades dataframe (src/data.py, class
Trade): id, date, ticker, trade_type, price, quantity, fees, the derived
total_cost, and the engine-written realized_pnl / unrealized_pnl. -/
structure Trade where
  id : ℕ
  date : ℤ
  ticker : String
  trade_type : Side
  price : ℚ
  quantity : ℚ
  fees : ℚ
  total_cost : ℚ
  realized_pnl : ℚ := 0
  unrealized_pnl : ℚ := 0
deriving DecidableEq, Repr

/-- Engine-internal per-instrument running state during the replay loop of
calculate_pnl (the local variables position, total_cost, realized_pnl of
src/utils.py lines 28-30). -/
structure PosState where
  position : ℚ
  total_cost : ℚ
  realized_pnl : ℚ
deriving DecidableEq, Repr

/-- One iteration of the replay loop body (src/utils.py lines 32-46).
On a Buy: position += quantity, total_cost += total_cost of the row.
On a Sell with position > 0: avg_cost = total_cost / position,
trade_pnl = (price - avg_cost) * quantity - fees accumulated into the
running realized_pnl, position decremented, cost basis shrunk
proportionally (reset to 0 when the remaining position is not > 0).
On a Sell with position <= 0: no state change. -/
def stepTrade (s : PosState) (tr : Trade) : PosState :=
  match tr.trade_type with
  | Side.Buy =>
      { s with position := s.position + tr.quantity,
               total_cost := s.total_cost + tr.total_cost }
  | Side.Sell =>
      if s.position > 0 then
        let avg_cost := s.total_cost / s.position
        let trade_pnl := (tr.price - avg_cost) * tr.quantity - tr.fees
        let newPos := s.position - tr.quantity
        { position := newPos,
          total_cost := if newPos > 0 then
              s.total_cost * (newPos / (newPos + tr.quantity))
            else 0,
          realized_pnl := s.realized_pnl + trade_pnl }
      else s

/-- Stable ascending insertion by date for index-tagged trades, modelling
sort_values('date') inside a ticker group (src/utils.py line 26). -/
def insertByDate (p : ℕ × Trade) : List (ℕ × Trade) → List (ℕ × Trade)
  | [] => [p]
  | q :: qs => if p.2.date ≤ q.2.date then p :: q :: qs else q :: insertByDate p qs

/-- Stable sort by date ascending on index-tagged trades. -/
def sortPairsByDate : List (ℕ × Trade) → List (ℕ × Trade)
  | [] => []
  | p :: ps => insertByDate p (sortPairsByDate ps)

/-- The sub-dataframe df[df['ticker'] == t] (src/utils.py line 26):
rows of ticker t in original row order. -/
def tickerGroup (l : List Trade) (t : String) : List Trade :=
  l.filter (fun tr => tr.ticker = t)

/-- Replay the date-sorted, index-tagged rows of one ticker through
stepTrade, recording for each row the value written back into its
realized_pnl cell: the running cumulative realized_pnl after processing
that row (src/utils.py line 49 executes after the if/else on every row). -/
def replayWrites : PosState → List (ℕ × Trade) → List (ℕ × ℚ)
  | _, [] => []
  | s, p :: rest =>
      let s' := stepTrade s p.2
      (p.1, s'.realized_pnl) :: replayWrites s' rest

/-- Tag the rows of a group with their positions n, n+1, ... -/
def enumFromN (n : ℕ) : List Trade → List (ℕ × Trade)
  | [] => []
  | tr :: rest => (n, tr) :: enumFromN (n + 1) rest

/-- The value recorded for row position j among the replay writes. -/
def lookupQ (j : ℕ) : List (ℕ × ℚ) → Option ℚ
  | [] => none
  | p :: rest => if p.1 = j then some p.2 else lookupQ j rest

/-- The list i, i+1, ..., i+n-1 of row positions. -/
def upFrom (i : ℕ) : ℕ → List ℕ
  | 0 => []
  | m + 1 => i :: upFrom (i + 1) m

/-- Realized-P&L values for one ticker group, aligned with the group's
original row order: the group is tagged with its positions, sorted by
date, replayed from the empty position (0, 0, 0), and each position's
written value is read back. -/
def replayGroup (g : List Trade) : List ℚ :=
  let writes := replayWrites ⟨0, 0, 0⟩ (sortPairsByDate (enumFromN 0 g))
  (upFrom 0 g.length).map (fun j => (lookupQ j writes).getD 0)

/-- Distribute per-ticker value streams back onto the full row list: the
j-th row of ticker t receives the j-th value of the stream for t. This is
the df.loc[idx, 'realized_pnl'] write-back of src/utils.py line 49, since
row labels within a ticker group appear in original row order. -/
def assignGroups : List Trade → (String → List ℚ) → List ℚ
  | [], _ => []
  | tr :: rest, s =>
      (s tr.ticker).headD 0 ::
        assignGroups rest
          (fun t => if t = tr.ticker then (s tr.ticker).tail else s t)

/-- The realized_pnl column produced by TradingCalculator.calculate_pnl,
aligned with the input row order. -/
def realizedColumn (l : List Trade) : List ℚ :=
  assignGroups l (fun t => replayGroup (tickerGroup l t))

/-- TradingCalculator.calculate_pnl (src/utils.py lines 20-52): returns a
copy of the dataframe with realized_pnl set to the per-instrument
cumulative replay value and unrealized_pnl set to 0 on every row. -/
def calculate_pnl (l : List Trade) : List Trade :=
  List.zipWith (fun tr r => { tr with realized_pnl := r, unrealized_pnl := 0 })
    l (realizedColumn l)

/-- Model of a Python float value that may be the infinity produced by
float('inf') in the profit-factor computation. -/
inductive PyFloat where
  | val : ℚ → PyFloat
  | inf : PyFloat
deriving DecidableEq, Repr

/-- The dictionary returned by TradingCalculator.calculate_metrics for a
nonempty dataframe (src/utils.py lines 146-161). The sharpe-like
statistic and the monthly best/worst keys are omitted: no verified
property reads them. -/
structure Metrics where
  total_trades : ℕ
  total_pnl : ℚ
  win_rate : ℚ
  avg_win : ℚ
  avg_loss : ℚ
  profit_factor : PyFloat
  max_drawdown : ℚ
  largest_win : ℚ
  largest_loss : ℚ
  total_volume : ℚ
  avg_trade_size : ℚ
deriving DecidableEq, Repr

/-- Running sums of a column, as pandas Series.cumsum. -/
def cumsum : List ℚ → List ℚ :=
  go 0
where
  go (acc : ℚ) : List ℚ → List ℚ
    | [] => []
    | x :: xs => (acc + x) :: go (acc + x) xs

/-- Tail of a running maximum, carrying the maximum m seen so far. -/
def runMaxFrom (m : ℚ) : List ℚ → List ℚ
  | [] => []
  | x :: xs => max m x :: runMaxFrom (max m x) xs

/-- Running maximum of a series, as pandas Series.expanding().max(). -/
def runningMax : List ℚ → List ℚ
  | [] => []
  | x :: xs => x :: runMaxFrom x xs

/-- Pointwise drawdown series of a realized_pnl column: cumulative sum
minus its running maximum (src/utils.py lines 124-126). -/
def drawdownList (xs : List ℚ) : List ℚ :=
  List.zipWith (fun c r => c - r) (cumsum xs) (runningMax (cumsum xs))

/-- Minimum of a list, as pandas Series.min on a nonempty series;
0 for the empty list (that case is unreachable in calculate_metrics,
which returns early on an empty dataframe). -/
def listMin : List ℚ → ℚ
  | [] => 0
  | x :: xs => xs.foldl min x

/-- Maximum of a list, as pandas Series.max on a nonempty series. -/
def listMax : List ℚ → ℚ
  | [] => 0
  | x :: xs => xs.foldl max x

/-- The max_drawdown value of src/utils.py line 127: minimum of the
drawdown series of the realized_pnl column taken in dataframe row
order. -/
def maxDrawdownOf (xs : List ℚ) : ℚ :=
  listMin (drawdownList xs)

/-- TradingCalculator.calculate_metrics (src/utils.py lines 98-161):
returns none for the empty dataframe, modelling the empty dict of line
101; otherwise the metric dictionary computed from the realized_pnl,
unrealized_pnl and total_cost columns in dataframe row order. -/
def calculate_metrics (rows : List Trade) : Option Metrics :=
  if rows = [] then none
  else
    let realizedCol := rows.map Trade.realized_pnl
    let realized_trades := rows.filter (fun tr => tr.realized_pnl ≠ 0)
    let winning := realized_trades.filter (fun tr => tr.realized_pnl > 0)
    let losing := realized_trades.filter (fun tr => tr.realized_pnl < 0)
    let winSum := (winning.map Trade.realized_pnl).sum
    let loseSum := (losing.map Trade.realized_pnl).sum
    some
      { total_trades := rows.length
        total_pnl := realizedCol.sum + (rows.map Trade.unrealized_pnl).sum
        win_rate :=
          if realized_trades = [] then 0
          else (winning.length : ℚ) / (realized_trades.length : ℚ) * 100
        avg_win :=
          if realized_trades = [] then 0
          else if winning = [] then 0 else winSum / (winning.length : ℚ)
        avg_loss :=
          if realized_trades = [] then 0
          else if losing = [] then 0 else loseSum / (losing.length : ℚ)
        profit_factor :=
          if realized_trades = [] then PyFloat.val 0
          else if losing ≠ [] ∧ loseSum ≠ 0 then PyFloat.val |winSum / loseSum|
          else PyFloat.inf
        max_drawdown := maxDrawdownOf realizedCol
        largest_win := listMax realizedCol
        largest_loss := listMin realizedCol
        total_volume := (rows.map Trade.total_cost).sum
        avg_trade_size := (rows.map Trade.total_cost).sum / (rows.length : ℚ) }

/-- Metrics of a raw trade list after running it through calculate_pnl,
the composition the application applies to a P&L-populated dataframe. -/
def metricsOfTrades (l : List Trade) : Option Metrics :=
  calculate_metrics (calculate_pnl l)

/-- Stable descending insertion by date, modelling the SQL
ORDER BY date DESC of DatabaseManager.get_trades (src/data.py line
111). -/
def insertDescByDate (tr : Trade) : List Trade → List Trade
  | [] => [tr]
  | b :: l => if b.date ≤ tr.date then tr :: b :: l else b :: insertDescByDate tr l

/-- Sort a trade list by date descending (stable). -/
def sortDescByDate : List Trade → List Trade
  | [] => []
  | tr :: l => insertDescByDate tr (sortDescByDate l)

/-- Stable ascending insertion by date on trade rows. -/
def insertAscByDate (tr : Trade) : List Trade → List Trade
  | [] => [tr]
  | b :: l => if tr.date ≤ b.date then tr :: b :: l else b :: insertAscByDate tr l

/-- Sort a trade list by date ascending (stable). -/
def sortAscByDate : List Trade → List Trade
  | [] => []
  | tr :: l => insertAscByDate tr (sortAscByDate l)

/-- DatabaseManager.get_trades (src/data.py lines 107-142): all stored
trades as a dataframe ordered by date descending. -/
def get_trades (db : List Trade) : List Trade :=
  sortDescByDate db

/-- Metrics as the application computes them: calculate_metrics applied
to the dataframe returned by get_trades (src/app.py line 697 on
st.session_state.trades_df, which is produced by get_trades). -/
def metricsOfDb (db : List Trade) : Option Metrics :=
  calculate_metrics (get_trades db)

/-- Modelled from the spec: the max_drawdown the specification describes
for section 4.2 — the cumulative realized P&L series ordered by timestamp
ASCENDING across all instruments combined, its running maximum, drawdown
at each point equal to cumulative minus running maximum, and the minimum
of that series (0 for an empty series). Stated for comparison with the
code's metricsOfDb, which runs over the dataframe's row order. -/
def spec_max_drawdown (db : List Trade) : ℚ :=
  maxDrawdownOf ((sortAscByDate db).map Trade.realized_pnl)

/-- The trade_data dictionary passed to DatabaseManager.add_trade
(src/data.py lines 67-105); option and note keys are omitted (optional
and unread by every verified property). -/
structure TradeData where
  date : ℤ
  ticker : String
  trade_type : Side
  price : ℚ
  quantity : ℚ
  fees : ℚ := 0
deriving DecidableEq, Repr

/-- DatabaseManager.add_trade (src/data.py lines 67-105): computes
total_cost = price * quantity + fees, inserts the row with the next
autoincrement id, and returns the new ledger and the id. No field value
is validated — any price or quantity, negative included, is stored. -/
def add_trade (db : List Trade) (td : TradeData) : List Trade × ℕ :=
  let tid := db.length + 1
  (db ++ [{ id := tid
            date := td.date
            ticker := td.ticker
            trade_type := td.trade_type
            price := td.price
            quantity := td.quantity
            fees := td.fees
            total_cost := td.price * td.quantity + td.fees }], tid)

/-- One CSV row as read by DatabaseManager.import_from_csv (src/data.py
lines 254-270). A none field models a missing or unparseable cell, on
which the Python row conversion raises and the row is counted failed;
fees defaults to 0 when absent. A numeric cell always parses, whatever
its sign. -/
structure CsvRow where
  date : Option ℤ
  ticker : Option String
  trade_type : Option Side
  price : Option ℚ
  quantity : Option ℚ
  fees : Option ℚ := none
deriving DecidableEq, Repr

/-- Row conversion of import_from_csv: succeeds exactly when every
required cell is present and parseable. -/
def parseRow (r : CsvRow) : Option TradeData :=
  match r.date, r.ticker, r.trade_type, r.price, r.quantity with
  | some d, some tk, some ty, some p, some q =>
      some { date := d, ticker := tk, trade_type := ty,
             price := p, quantity := q, fees := r.fees.getD 0 }
  | _, _, _, _, _ => none

/-- DatabaseManager.import_from_csv (src/data.py lines 247-281): each row
is converted and added independently; a row whose conversion raises is
counted failed and processing continues. Returns the final ledger and
the (successful, failed) counts. -/
def import_from_csv (db : List Trade) (rows : List CsvRow) :
    List Trade × ℕ × ℕ :=
  rows.foldl
    (fun acc r =>
      match parseRow r with
      | some td => ((add_trade acc.1 td).1, acc.2.1 + 1, acc.2.2)
      | none => (acc.1, acc.2.1, acc.2.2 + 1))
    (db, 0, 0)

/-- The trade_data dictionary passed to DatabaseManager.update_trade: a
set field overwrites the stored attribute, an absent field leaves it
unchanged (the setattr loop of src/data.py lines 153-155). -/
structure TradeUpdate where
  date : Option ℤ := none
  ticker : Option String := none
  trade_type : Option Side := none
  price : Option ℚ := none
  quantity : Option ℚ := none
  fees : Option ℚ := none
deriving DecidableEq, Repr

/-- Apply an update dictionary to a stored trade and recompute
total_cost = price * quantity + fees (src/data.py line 158). -/
def applyUpdate (u : TradeUpdate) (tr : Trade) : Trade :=
  let tr' := { tr with
    date := u.date.getD tr.date
    ticker := u.ticker.getD tr.ticker
    trade_type := u.trade_type.getD tr.trade_type
    price := u.price.getD tr.price
    quantity := u.quantity.getD tr.quantity
    fees := u.fees.getD tr.fees }
  { tr' with total_cost := tr'.price * tr'.quantity + tr'.fees }

/-- Replace the first stored trade with the given id. -/
def updateFirst (f : Trade → Trade) (tid : ℕ) : List Trade → List Trade
  | [] => []
  | tr :: rest =>
      if tr.id = tid then f tr :: rest else tr :: updateFirst f tid rest

/-- DatabaseManager.update_trade (src/data.py lines 144-166): looks up
the first row with the id; when none exists it returns False with the
ledger untouched, otherwise it applies the updates, recomputes
total_cost and returns True. -/
def update_trade (db : List Trade) (tid : ℕ) (u : TradeUpdate) :
    Bool × List Trade :=
  if db.any (fun tr => tr.id = tid) then
    (true, updateFirst (applyUpdate u) tid db)
  else
    (false, db)

/-- DatabaseManager.delete_trade (src/data.py lines 168-183): looks up
the first row with the id; when none exists it returns False with the
ledger untouched, otherwise it removes that row and returns True. -/
def delete_trade (db : List Trade) (tid : ℕ) : Bool × List Trade :=
  if db.any (fun tr => tr.id = tid) then
    (true, db.eraseP (fun tr => tr.id = tid))
  else
    (false, db)

/-- The trade_data dictionary consumed by
TradingCalculator.calculate_risk_metrics, with the code's .get
defaults (src/utils.py lines 170-177). -/
structure RiskInput where
  price : ℚ
  stop_loss_pct : ℚ := 2 / 100
  win_rate : ℚ := 1 / 2
  avg_win : ℚ := 0
  avg_loss : ℚ := 0
deriving DecidableEq, Repr

/-- The dictionary returned by calculate_risk_metrics (src/utils.py
lines 185-190). -/
structure RiskMetrics where
  one_percent_risk : ℚ
  max_shares_1pct : ℤ
  kelly_percentage : ℚ
  recommended_position_size : ℤ
deriving DecidableEq, Repr

/-- Truncation toward zero, as the Python int() conversion of a float. -/
def pyInt (q : ℚ) : ℤ :=
  if 0 ≤ q then ⌊q⌋ else ⌈q⌉

/-- TradingCalculator.calculate_risk_metrics (src/utils.py lines
164-190). none models an uncaught ZeroDivisionError: the Kelly line
divides by avg_win whenever avg_loss is nonzero, and the recommended
position size divides by the price. -/
def calculate_risk_metrics (account_value : ℚ) (td : RiskInput) :
    Option RiskMetrics :=
  let one_percent_risk := account_value * (1 / 100)
  let risk_per_share := td.price * td.stop_loss_pct
  let max_shares : ℤ :=
    if risk_per_share > 0 then pyInt (one_percent_risk / risk_per_share) else 0
  match
    (if td.avg_loss ≠ 0 then
      (if td.avg_win = 0 then none
       else some (max 0 (min
         ((td.win_rate * td.avg_win - (1 - td.win_rate) * |td.avg_loss|)
           / td.avg_win) (1 / 4))))
     else some 0 : Option ℚ) with
  | none => none
  | some kelly =>
      if td.price = 0 then none
      else
        some { one_percent_risk := one_percent_risk
               max_shares_1pct := max_shares
               kelly_percentage := kelly
               recommended_position_size :=
                 min max_shares (pyInt (account_value * kelly / td.price)) }

/-- Scenario A buy: 10 units of A at 100, fee 0 (total_cost 1000). -/
def buyA : Trade :=
  { id := 1, date := 0, ticker := "A", trade_type := Side.Buy,
    price := 100, quantity := 10, fees := 0, total_cost := 1000 }

/-- Scenario A sell: 10 units of A at 120, fee 0. -/
def sellA : Trade :=
  { id := 2, date := 1, ticker := "A", trade_type := Side.Sell,
    price := 120, quantity := 10, fees := 0, total_cost := 1200 }

/-- Double-count example: buy 10 units of AAPL at 100. -/
def c1b : Trade :=
  { id := 1, date := 0, ticker := "AAPL", trade_type := Side.Buy,
    price := 100, quantity := 10, fees := 0, total_cost := 1000 }

/-- Double-count example: first sell, 5 units at 110 (contribution 50). -/
def c1s1 : Trade :=
  { id := 2, date := 1, ticker := "AAPL", trade_type := Side.Sell,
    price := 110, quantity := 5, fees := 0, total_cost := 550 }

/-- Double-count example: second sell, 5 units at 110 (contribution 50). -/
def c1s2 : Trade :=
  { id := 3, date := 2, ticker := "AAPL", trade_type := Side.Sell,
    price := 110, quantity := 5, fees := 0, total_cost := 550 }

/-- Buy-after-sell example: buy 1 unit of A at 10. -/
def c2b1 : Trade :=
  { id := 1, date := 0, ticker := "A", trade_type := Side.Buy,
    price := 10, quantity := 1, fees := 0, total_cost := 10 }

/-- Buy-after-sell example: sell 1 unit of A at 20 (realizes 10). -/
def c2s : Trade :=
  { id := 2, date := 1, ticker := "A", trade_type := Side.Sell,
    price := 20, quantity := 1, fees := 0, total_cost := 20 }

/-- Buy-after-sell example: a later buy of 1 unit of A at 10. -/
def c2b2 : Trade :=
  { id := 3, date := 2, ticker := "A", trade_type := Side.Buy,
    price := 10, quantity := 1, fees := 0, total_cost := 10 }

/-- Drawdown example: earlier stored row carrying realized_pnl 5. -/
def ddRow1 : Trade :=
  { id := 1, date := 1, ticker := "X", trade_type := Side.Buy,
    price := 1, quantity := 1, fees := 0, total_cost := 1, realized_pnl := 5 }

/-- Drawdown example: later stored row carrying realized_pnl -10. -/
def ddRow2 : Trade :=
  { id := 2, date := 2, ticker := "X", trade_type := Side.Buy,
    price := 1, quantity := 1, fees := 0, total_cost := 1, realized_pnl := -10 }

/-- A well-formed CSV import row with the given quantity and date. -/
def csvRowQ (q : ℚ) (d : ℤ) : CsvRow :=
  { date := some d, ticker := some "T", trade_type := some Side.Buy,
    price := some 10, quantity := some q }

/-- Import batch of five parseable rows whose third row has quantity
-10. -/
def csvBatch : List CsvRow :=
  [csvRowQ 1 1, csvRowQ 2 2, csvRowQ (-10) 3, csvRowQ 4 4, csvRowQ 5 5]

/-- Interleaving example: buy on ticker A. -/
def wA1 : Trade :=
  { id := 1, date := 0, ticker := "A", trade_type := Side.Buy,
    price := 10, quantity := 1, fees := 0, total_cost := 10 }

/-- Interleaving example: buy on ticker B. -/
def wB1 : Trade :=
  { id := 2, date := 0, ticker := "B", trade_type := Side.Buy,
    price := 5, quantity := 2, fees := 0, total_cost := 10 }

/-- Interleaving example: sell on ticker A (realizes 10). -/
def wA2 : Trade :=
  { id := 3, date := 1, ticker := "A", trade_type := Side.Sell,
    price := 20, quantity := 1, fees := 0, total_cost := 20 }

theorem upFrom_length (n i : ℕ) : (upFrom i n).length = n := by
  induction n generalizing i with
  | zero => rfl
  | succ m ih => simp [upFrom, ih]

theorem replayGroup_length (g : List Trade) :
    (replayGroup g).length = g.length := by
  simp [replayGroup, upFrom_length]

/-- Claim C1: the total_pnl produced by the metrics computation at the
buy/sell/sell example is 150, the sum of the cumulative realized_pnl
column [0, 50, 100] over all rows, although the final cumulative
realized P&L of the single instrument is only 100 (the value on the
last chronological sell, which does equal the sum 50 + 50 of the
individual close-out contributions). -/
theorem C1_total_pnl_double_counts :
    realizedColumn [c1b, c1s1, c1s2] = [0, 50, 100] ∧
    (metricsOfTrades [c1b, c1s1, c1s2]).map Metrics.total_pnl = some 150 ∧
    (replayGroup (tickerGroup [c1b, c1s1, c1s2] "AAPL")).getLast? = some 100 := by
  simp only [metricsOfTrades, calculate_pnl, calculate_metrics, realizedColumn,
    tickerGroup, assignGroups, replayGroup, enumFromN, sortPairsByDate,
    insertByDate, replayWrites, stepTrade, upFrom, lookupQ, List.filter,
    List.zipWith, c1b, c1s1, c1s2]
  norm_num [List.cons_ne_nil]

/-- Claim C2 (counterexample): in buy, sell, buy on one instrument the
final buy row receives realized_pnl 10, the instrument's cumulative
realized P&L, not 0. -/
theorem C2_counterexample :
    ([c2b1, c2s, c2b2].map Trade.trade_type)[2]? = some Side.Buy ∧
    (realizedColumn [c2b1, c2s, c2b2])[2]? = some 10 ∧ (10 : ℚ) ≠ 0 := by
  simp only [realizedColumn, tickerGroup, assignGroups, replayGroup, enumFromN,
    sortPairsByDate, insertByDate, replayWrites, stepTrade, upFrom, lookupQ,
    List.filter, c2b1, c2s, c2b2]
  norm_num

/-- Claim C2 (amended): a Buy only adds its quantity to the open
position and its gross cost to the cost basis and leaves the running
cumulative realized P&L unchanged; the realized_pnl written on the buy
row is therefore the instrument's cumulative realized P&L so far, which
is 0 only when no earlier Sell realized anything. -/
theorem C2_buy_step (s : PosState) (tr : Trade)
    (h : tr.trade_type = Side.Buy) :
    stepTrade s tr =
      ⟨s.position + tr.quantity, s.total_cost + tr.total_cost, s.realized_pnl⟩ := by
  simp [stepTrade, h]

theorem C2_buy_step_witness :
    stepTrade ⟨3, 4, 5⟩ c2b2 = ⟨4, 14, 5⟩ := by
  have h := C2_buy_step ⟨3, 4, 5⟩ c2b2 rfl
  rw [h]
  norm_num [c2b2, PosState.mk.injEq]

/-- Claim C3: the Kelly computation divides by avg_win whenever avg_loss
is nonzero, so the input avg_win = 0, avg_loss = -5 raises
ZeroDivisionError (modelled as none) instead of returning the Kelly
fraction 0 the specification requires. -/
theorem C3_kelly_division_by_zero :
    calculate_risk_metrics 10000 { price := 50, avg_win := 0, avg_loss := -5 } = none := by
  simp only [calculate_risk_metrics]
  norm_num

/-- Claim C4 (counterexample): for the empty trade set calculate_metrics
returns the empty dictionary, not a populated all-zero snapshot. -/
theorem C4_counterexample :
    ¬ ∃ m, calculate_metrics ([] : List Trade) = some m := by
  simp [calculate_metrics]

/-- Claim C4 (amended): for the empty trade set calculate_metrics
returns, without raising, the empty dictionary containing no metric
fields. -/
theorem C4_empty_returns_empty_dict :
    calculate_metrics ([] : List Trade) = none := rfl

/-- Claim C5: importing the five-row batch whose third row has quantity
-10 succeeds on every row — the result is (5 successful, 0 failed), the
ledger afterwards holds five new trades, and the negative-quantity trade
is among them; nothing validates non-negativity on the import path. -/
theorem C5_negative_quantity_imported :
    (import_from_csv [] csvBatch).2 = (5, 0) ∧
    (import_from_csv [] csvBatch).1.length = 5 ∧
    ((import_from_csv [] csvBatch).1.map Trade.quantity)[2]? = some ((-10 : ℚ)) := by
  simp only [import_from_csv, csvBatch, csvRowQ, parseRow, add_trade, List.foldl]
  norm_num [List.getElem?_cons_succ, List.getElem?_cons_zero]

/-- Claim C6: a Sell processed while the open position is not positive
changes nothing — the running position, cost basis and cumulative
realized P&L all stay as they were, so the sell contributes 0 and every
downstream aggregate stays computable. -/
theorem C6_sell_zero_position (s : PosState) (tr : Trade)
    (h1 : tr.trade_type = Side.Sell) (h2 : s.position ≤ 0) :
    stepTrade s tr = s := by
  simp [stepTrade, h1, if_neg (not_lt.mpr h2)]

theorem C6_sell_zero_position_witness :
    stepTrade ⟨0, 0, 7⟩ c2s = ⟨0, 0, 7⟩ :=
  C6_sell_zero_position ⟨0, 0, 7⟩ c2s rfl (le_refl 0)

/-- Claim C7: Scenario A — buy 10 at 100 then sell 10 at 120, fees 0 —
gives realized_pnl 200 on the sell row, a win rate of 100 percent and
the unbounded (infinite) profit factor. -/
theorem C7_scenarioA :
    realizedColumn [buyA, sellA] = [0, 200] ∧
    (metricsOfTrades [buyA, sellA]).map Metrics.win_rate = some 100 ∧
    (metricsOfTrades [buyA, sellA]).map Metrics.profit_factor = some PyFloat.inf := by
  simp only [metricsOfTrades, calculate_pnl, calculate_metrics, realizedColumn,
    tickerGroup, assignGroups, replayGroup, enumFromN, sortPairsByDate,
    insertByDate, replayWrites, stepTrade, upFrom, lookupQ, List.filter,
    List.zipWith, buyA, sellA]
  norm_num [List.cons_ne_nil]

theorem foldl_min_le_init (xs : List ℚ) (a : ℚ) : xs.foldl min a ≤ a := by
  induction xs generalizing a with
  | nil => exact le_refl a
  | cons x rest ih => exact le_trans (ih (min a x)) (min_le_left a x)

theorem listMin_nonpos (xs : List ℚ) (h : ∀ x ∈ xs, x ≤ 0) :
    listMin xs ≤ 0 := by
  cases xs with
  | nil => exact le_refl 0
  | cons x rest =>
      exact le_trans (foldl_min_le_init rest x) (h x (List.mem_cons_self x rest))

theorem zipSub_runMaxFrom_nonpos (ys : List ℚ) (m : ℚ) :
    ∀ x ∈ List.zipWith (fun c r => c - r) ys (runMaxFrom m ys), x ≤ 0 := by
  induction ys generalizing m with
  | nil => intro x hx; simp [runMaxFrom] at hx
  | cons y rest ih =>
      intro x hx
      simp only [runMaxFrom, List.zipWith] at hx
      rcases List.mem_cons.mp hx with h | h
      · subst h
        exact sub_nonpos.mpr (le_max_right m y)
      · exact ih (max m y) x h

theorem drawdownList_nonpos (xs : List ℚ) :
    ∀ x ∈ drawdownList xs, x ≤ 0 := by
  rw [drawdownList]
  generalize cumsum xs = cs
  cases cs with
  | nil => intro x hx; simp at hx
  | cons c rest =>
      intro x hx
      simp only [runningMax, List.zipWith] at hx
      rcases List.mem_cons.mp hx with h | h
      · subst h; simp
      · exact zipSub_runMaxFrom_nonpos rest c x h

theorem maxDrawdownOf_nonpos (xs : List ℚ) : maxDrawdownOf xs ≤ 0 :=
  listMin_nonpos (drawdownList xs) (drawdownList_nonpos xs)

theorem insertDescByDate_length (tr : Trade) (l : List Trade) :
    (insertDescByDate tr l).length = l.length + 1 := by
  induction l with
  | nil => rfl
  | cons b rest ih =>
      by_cases h : b.date ≤ tr.date
      · simp [insertDescByDate, h]
      · simp [insertDescByDate, h, ih]

theorem sortDescByDate_length (l : List Trade) :
    (sortDescByDate l).length = l.length := by
  induction l with
  | nil => rfl
  | cons tr rest ih => simp [sortDescByDate, insertDescByDate_length, ih]

theorem get_trades_ne_nil (db : List Trade) (h : db ≠ []) :
    get_trades db ≠ [] := by
  intro hc
  apply h
  have := sortDescByDate_length db
  rw [get_trades] at hc
  rw [hc] at this
  exact List.length_eq_zero.mp this.symm

/-- Claim C8 (counterexample): for the two-row ledger whose stored
realized_pnl values are 5 (earlier date) and -10 (later date), the
application's metrics report max_drawdown 0 — the cumulative series is
taken in get_trades' descending-date row order — while the
timestamp-ascending construction the claim describes yields -10. -/
theorem C8_counterexample :
    (metricsOfDb [ddRow1, ddRow2]).map Metrics.max_drawdown = some 0 ∧
    spec_max_drawdown [ddRow1, ddRow2] = -10 ∧ (0 : ℚ) ≠ -10 := by
  simp only [metricsOfDb, get_trades, sortDescByDate, insertDescByDate,
    spec_max_drawdown, sortAscByDate, insertAscByDate, calculate_metrics,
    maxDrawdownOf, drawdownList, cumsum, cumsum.go, runningMax, runMaxFrom,
    listMin, listMax, List.filter, ddRow1, ddRow2]
  norm_num [List.cons_ne_nil]

/-- Claim C8 (amended): for a nonempty ledger the metrics computed by
the application report max_drawdown equal to the minimum of the
cumulative-minus-running-maximum series of the realized_pnl column taken
in the dataframe's row order, which get_trades produces sorted by
timestamp DESCENDING (not ascending); every drawdown is nonpositive, so
in particular the reported max_drawdown is at most 0. -/
theorem C8_drawdown_desc_order (db : List Trade) (h : db ≠ []) :
    (metricsOfDb db).map Metrics.max_drawdown
      = some (maxDrawdownOf ((get_trades db).map Trade.realized_pnl)) ∧
    maxDrawdownOf ((get_trades db).map Trade.realized_pnl) ≤ 0 := by
  constructor
  · have h2 : get_trades db ≠ [] := get_trades_ne_nil db h
    simp [metricsOfDb, calculate_metrics, h2]
  · exact maxDrawdownOf_nonpos _

theorem C8_drawdown_desc_order_witness :
    (metricsOfDb [ddRow1, ddRow2]).map Metrics.max_drawdown
      = some (maxDrawdownOf ((get_trades [ddRow1, ddRow2]).map Trade.realized_pnl)) ∧
    maxDrawdownOf ((get_trades [ddRow1, ddRow2]).map Trade.realized_pnl) ≤ 0 :=
  C8_drawdown_desc_order [ddRow1, ddRow2] (by simp)

/-- Claim C10: update_trade and delete_trade called with an id that no
stored trade carries return False and leave the stored trade collection
exactly as it was. -/
theorem C10_missing_id (db : List Trade) (tid : ℕ) (u : TradeUpdate)
    (h : ∀ tr ∈ db, tr.id ≠ tid) :
    update_trade db tid u = (false, db) ∧ delete_trade db tid = (false, db) := by
  have hany : db.any (fun tr => tr.id = tid) = false := by
    simp only [List.any_eq_false, decide_eq_true_eq]
    exact h
  constructor
  · simp [update_trade, hany]
  · simp [delete_trade, hany]

theorem C10_missing_id_witness :
    update_trade [c2b1] 2 {} = (false, [c2b1]) ∧
    delete_trade [c2b1] 2 = (false, [c2b1]) :=
  C10_missing_id [c2b1] 2 {} (by simp [c2b1])

theorem tickerGroup_cons (x : Trade) (xs : List Trade) (u : String) :
    tickerGroup (x :: xs) u =
      if x.ticker = u then x :: tickerGroup xs u else tickerGroup xs u := by
  simp only [tickerGroup, List.filter_cons]
  by_cases h : x.ticker = u
  · simp [h]
  · simp [h]

theorem assignGroups_zip_filter (l : List Trade) :
    ∀ (s : String → List ℚ) (t : String),
      (∀ u, (s u).length = (tickerGroup l u).length) →
      (l.zip (assignGroups l s)).filter (fun p => p.1.ticker = t)
        = (tickerGroup l t).zip (s t) := by
  induction l with
  | nil =>
      intro s t h
      simp [assignGroups, tickerGroup]
  | cons tr rest ih =>
      intro s t h
      have hlen := h tr.ticker
      rw [tickerGroup_cons, if_pos rfl] at hlen
      cases hs : s tr.ticker with
      | nil => rw [hs] at hlen; simp at hlen
      | cons a as =>
          rw [hs] at hlen
          simp only [List.length_cons, Nat.add_right_cancel_iff] at hlen
          have h' : ∀ u,
              ((fun v => if v = tr.ticker then as else s v) u).length
                = (tickerGroup rest u).length := by
            intro u
            by_cases hu : u = tr.ticker
            · subst hu
              simp [hlen]
            · have hu2 := h u
              rw [tickerGroup_cons, if_neg (fun hh => hu hh.symm)] at hu2
              simpa [hu] using hu2
          by_cases htr : tr.ticker = t
          · subst htr
            rw [tickerGroup_cons, if_pos rfl, hs, List.zip_cons_cons]
            simp only [assignGroups, List.zip_cons_cons, List.filter_cons,
              decide_eq_true_eq, eq_self_iff_true, if_true, hs,
              List.headD_cons, List.tail_cons]
            rw [ih (fun v => if v = tr.ticker then as else s v) tr.ticker h']
            simp
          · have hne : t ≠ tr.ticker := fun hh => htr hh.symm
            rw [tickerGroup_cons, if_neg htr]
            simp only [assignGroups, List.zip_cons_cons, List.filter_cons,
              decide_eq_true_eq, htr, if_false, hs, List.tail_cons]
            rw [ih (fun v => if v = tr.ticker then as else s v) t h']
            simp [hne]

/-- Claim C9: reordering trades across instruments while preserving each
instrument's internal order leaves every trade paired with the same
realized_pnl value: for every ticker t, the per-ticker sequence of
(trade, assigned realized_pnl) pairs of the replay output is unchanged. -/
theorem C9_cross_instrument_order_independence (l₁ l₂ : List Trade) (t : String)
    (h : ∀ u, tickerGroup l₁ u = tickerGroup l₂ u) :
    (l₁.zip (realizedColumn l₁)).filter (fun p => p.1.ticker = t)
      = (l₂.zip (realizedColumn l₂)).filter (fun p => p.1.ticker = t) := by
  rw [realizedColumn, assignGroups_zip_filter l₁ _ t (fun u => replayGroup_length _),
      realizedColumn, assignGroups_zip_filter l₂ _ t (fun u => replayGroup_length _),
      h t]

theorem C9_cross_instrument_order_independence_witness :
    ([wA1, wB1, wA2].zip (realizedColumn [wA1, wB1, wA2])).filter
        (fun p => p.1.ticker = "A")
      = ([wB1, wA1, wA2].zip (realizedColumn [wB1, wA1, wA2])).filter
        (fun p => p.1.ticker = "A") :=
  C9_cross_instrument_order_independence [wA1, wB1, wA2] [wB1, wA1, wA2] "A"
    (by
      intro u
      by_cases h1 : ("A" : String) = u
      · by_cases h2 : ("B" : String) = u
        · exact absurd (h1.trans h2.symm) (by decide)
        · simp [tickerGroup, wA1, wB1, wA2, h1, h2]
      · by_cases h2 : ("B" : String) = u
        · simp [tickerGroup, wA1, wB1, wA2, h1, h2]
        · simp [tickerGroup, wA1, wB1, wA2, h1, h2])
